import Mathlib

/-
Verification of the `manufactory` crate-management CLI (crates.py, new.py)
against its specification.

Modelling conventions (shallow embedding):
- The filesystem is a predicate `FS : String → Bool` over RESOLVED absolute
  path strings (a path maps to `true` iff it exists on disk).
- `Path.exists()` performs an OS-level check, which resolves `.` and `..`
  segments; we model that resolution with `resolve` below (symlinks are not
  modelled; none appear in the program).
- Each command handler from crates.py becomes a pure function returning a
  `CmdResult`: the Python return value (`none` models Python `None`), the
  ordered list of observable external effects (prints, the confirmation
  prompt, subprocess invocations, recursive deletions), and the filesystem
  after the call.
- Subprocess return codes are supplied by an oracle `exec : List String → Int`
  mapping an argv vector to the return code of that invocation.
- The single `input()` read performed by `confirm` is supplied as an explicit
  `userInput : String` argument.
- `_root_dir = Path(__file__).parent` is an arbitrary absolute directory; we
  fix the concrete placeholder "/ws" (no claim depends on its value).
-/

namespace Manufactory

/-- Observable external actions a command can perform, in order. -/
inductive Effect where
  /-- Models `print(s)` to stdout. -/
  | print (s : String)
  /-- Models `input(q)`: the confirmation prompt shown to the user. -/
  | prompt (q : String)
  /-- Models `subprocess.run(argv)`. -/
  | runProc (argv : List String)
  /-- Models `shutil.rmtree(path)`. -/
  | rmtreeE (path : String)
deriving DecidableEq

/-- A filesystem: which resolved absolute paths currently exist. -/
abbrev FS := String → Bool

/-- ASCII lowercasing of one character (models Python `str.lower` on the
characters relevant to the comparisons performed by the program). -/
def lowerChar (c : Char) : Char :=
  if 'A' ≤ c ∧ c ≤ 'Z' then Char.ofNat (c.toNat + 32) else c

/-- Lowercase a string character-wise. -/
def lowerStr (s : String) : String := String.mk (s.data.map lowerChar)

/-- Split a character list on the path separator. -/
def splitSegs : List Char → List Char → List String
  | [], cur => [String.mk cur.reverse]
  | c :: rest, cur =>
    if c = '/' then String.mk cur.reverse :: splitSegs rest []
    else splitSegs rest (c :: cur)

/-- Segments of a path string. -/
def pathSegs (s : String) : List String := splitSegs s.data []

/-- OS-level resolution of `.` and `..` segments (leftmost first). -/
def resolveSegs (segs : List String) : List String :=
  segs.foldl
    (fun acc seg =>
      if seg = "" ∨ seg = "." then acc
      else if seg = ".." then acc.dropLast
      else acc ++ [seg]) []

/-- Rebuild a path string from segments. -/
def joinSegs : List String → String
  | [] => ""
  | [s] => s
  | s :: rest => s ++ "/" ++ joinSegs rest

/-- Resolve an absolute path string to its canonical form. -/
def resolve (p : String) : String := "/" ++ joinSegs (resolveSegs (pathSegs p))

/-- Models `Path(p).exists()`: OS existence check of the resolved path. -/
def pathExists (fs : FS) (p : String) : Bool := fs (resolve p)

/-- Is `q` the directory `d` itself or a path inside it? -/
def isUnder (d q : String) : Bool :=
  q == d || List.isPrefixOf (d ++ "/").data q.data

/-- Models `shutil.rmtree(p)`: the tree rooted at the resolved path is gone. -/
def rmtree (fs : FS) (p : String) : FS :=
  fun q => if isUnder (resolve p) q then false else fs q

/-- Models `_root_dir = Path(__file__).parent` (placeholder concrete location). -/
def root_dir : String := "/ws"

/-- Models `_crates_dir = _root_dir.joinpath(crates)`. -/
def crates_dir : String := root_dir ++ "/crates"

/-- Models `get_crates_path(subpath)` = `_crates_dir.joinpath(subpath)`: the raw
join of the crates directory with the given name, with no validation. -/
def get_crates_path (subpath : String) : String :=
  crates_dir ++ "/" ++ subpath

/-- Models `confirm(prompt)`: read a line, lowercase it, accept yes and y.
Returns the boolean answer and the prompt effect of the `input()` call. -/
def confirm (prompt userInput : String) : Bool × List Effect :=
  let user_input := lowerStr userInput
  (if user_input = "yes" ∨ user_input = "y" then true else false,
   [Effect.prompt (prompt ++ " [Yes/No]:")])

/-- Result of one command handler: the Python return value (`none` = `None`),
the ordered effects, and the filesystem afterwards. -/
structure CmdResult where
  ret : Option Int
  effects : List Effect
  fs : FS

/-- Models `sys.exit(main(sys.argv[1:]) or 0)`: the process exit code produced
from a handler return value by Python `or`. -/
def exit_code (r : Option Int) : Int :=
  match r with
  | none => 0
  | some n => if n = 0 then 0 else n

/-- Models `new(name, type=lib)`: plain-function variant; runs cargo init and
discards the return code. -/
def new (name : String) (type : String := "lib") : List Effect :=
  [Effect.runProc ["cargo", "init", "--" ++ type, "crates\\" ++ name]]

/-- Models `new_command(args)`: run cargo init and forward its return code. -/
def new_command (fs : FS) (exec : List String → Int) (type name : String) :
    CmdResult :=
  let argv := ["cargo", "init", "--" ++ type, "crates\\" ++ name]
  { ret := some (exec argv), effects := [Effect.runProc argv], fs := fs }

/-- Models `remove(name)`: plain-function variant; raises `KeyError(name)` when the
path is missing (modelled as `Except.error name`), else deletes it. -/
def remove (fs : FS) (name : String) : Except String (List Effect × FS) :=
  let subpath := get_crates_path name
  if !(pathExists fs subpath) then Except.error name
  else Except.ok ([Effect.rmtreeE subpath], rmtree fs subpath)

/-- Models `rm_command(args)`: missing path prints (unless quiet) and returns 1;
otherwise deletes when forced, or after an affirmative confirmation
(short-circuit: the prompt happens only when force is unset). -/
def rm_command (fs : FS) (userInput name : String) (force quiet : Bool) :
    CmdResult :=
  let subpath := get_crates_path name
  if !(pathExists fs subpath) then
    { ret := some 1,
      effects := if !quiet then [Effect.print "Path does not exist."] else [],
      fs := fs }
  else
    let conf :=
      if force then (true, ([] : List Effect))
      else confirm ("Permanently delete " ++ name ++ "?") userInput
    if conf.1 then
      { ret := none,
        effects := conf.2 ++ [Effect.rmtreeE subpath]
          ++ (if !quiet then [Effect.print (name ++ " was deleted.")] else []),
        fs := rmtree fs subpath }
    else
      { ret := none, effects := conf.2, fs := fs }

/-- Models `open_terminal(name, profile=None, new_window=False)`: plain-function
variant; appends the profile arguments only when the profile is truthy. -/
def open_terminal (name : String) (profile : Option String := none)
    (new_window : Bool := false) : List Effect :=
  let wt_args := ["wt"]
  let wt_args := if !new_window then wt_args ++ ["-w", "0"] else wt_args
  let subpath := get_crates_path name
  let wt_args := wt_args ++ ["-d", subpath]
  let wt_args :=
    match profile with
    | some p => if p ≠ "" then wt_args ++ ["-p", p] else wt_args
    | none => wt_args
  [Effect.runProc wt_args]

/-- Models `term_command(args)`: always appends the profile arguments and forwards
the return code. -/
def term_command (fs : FS) (exec : List String → Int) (name profile : String)
    (new_window : Bool) : CmdResult :=
  let wt_args := ["wt"]
  let wt_args := if !new_window then wt_args ++ ["-w", "0"] else wt_args
  let subpath := get_crates_path name
  let wt_args := wt_args ++ ["-d", subpath] ++ ["-p", profile]
  { ret := some (exec wt_args), effects := [Effect.runProc wt_args], fs := fs }

/-- Models `exists(name)`: plain-function variant, a bare existence check. -/
def exists_fn (fs : FS) (name : String) : Bool :=
  pathExists fs (get_crates_path name)

/-- Models `exists_command(args)`: prints the status unless quiet; returns `None`
when the path exists and 1 otherwise. -/
def exists_command (fs : FS) (name : String) (quiet : Bool) : CmdResult :=
  if exists_fn fs name then
    { ret := none,
      effects := if !quiet then [Effect.print "Exists."] else [],
      fs := fs }
  else
    { ret := some 1,
      effects := if !quiet then [Effect.print "Does not exist."] else [],
      fs := fs }

/-- Models `run_command(args)`: missing path prints (the body never consults
`args.quiet`) and returns 1; else runs cargo with the release flag against
the manifest and forwards the return code. The unused `quiet` argument
records that the parsed arguments do carry the global quiet flag. -/
def run_command (fs : FS) (exec : List String → Int) (name : String)
    (quiet : Bool) : CmdResult :=
  let path := get_crates_path name
  if !(pathExists fs path) then
    { ret := some 1,
      effects := [Effect.print (name ++ " does not exist.")],
      fs := fs }
  else
    let man_path := path ++ "/" ++ "Cargo.toml"
    let cargo_args := ["cargo", "run", "--release", "--manifest-path", man_path]
    { ret := some (exec cargo_args),
      effects := [Effect.runProc cargo_args], fs := fs }

/-- Models `debug_command(args)`: as `run_command` but without the release flag;
the missing-path print likewise ignores `args.quiet`. -/
def debug_command (fs : FS) (exec : List String → Int) (name : String)
    (quiet : Bool) : CmdResult :=
  let path := get_crates_path name
  if !(pathExists fs path) then
    { ret := some 1,
      effects := [Effect.print (name ++ " does not exist.")],
      fs := fs }
  else
    let man_path := path ++ "/" ++ "Cargo.toml"
    let cargo_args := ["cargo", "run", "--manifest-path", man_path]
    { ret := some (exec cargo_args),
      effects := [Effect.runProc cargo_args], fs := fs }

/-- Models `subprocess.run` result as seen by the caller. -/
structure CompletedProcess where
  args : List String
  returncode : Int
deriving DecidableEq

/-- Models `main(args)` of new.py: runs cargo init and returns the whole
`CompletedProcess` object, paired with the effect trace. -/
def newpy_main (exec : List String → Int) (type name : String) :
    CompletedProcess × List Effect :=
  let argv := ["cargo", "init", "--" ++ type, "crates\\" ++ name]
  ({ args := argv, returncode := exec argv }, [Effect.runProc argv])

/-- Modelled from the spec: the `entry` wrapper of the external argument
parsing library `cmdr` (imported by new.py, not part of src/). The spec
states that the process exit code is the external tool return code when one
is invoked, so the wrapper turns the handler result, a process object, into
that process return code. -/
def cmdr_entry_exit (r : CompletedProcess) : Int := r.returncode

/-- Filesystem value of a `remove` call at a path, when it succeeded. -/
def fsAfterRemove (r : Except String (List Effect × FS)) (p : String) :
    Option Bool :=
  match r with
  | Except.ok (_, f) => some (f p)
  | Except.error _ => none

/-- Concrete filesystem: exactly the crate directory `/ws/crates/foo`. -/
def fs0 : FS := fun p => p == "/ws/crates/foo"

/-- Concrete empty filesystem. -/
def fsEmpty : FS := fun _ => false

/-- Concrete filesystem: exactly the workspace root `/ws`. -/
def fsRoot : FS := fun p => p == "/ws"

/-- Concrete return-code oracle. -/
def exec0 : List String → Int := fun _ => 0

/-- Refolding of the string literals in the confirmation prompt. -/
theorem prompt_string (s : String) :
    s ++ "?" ++ " [Yes/No]:" = s ++ "? [Yes/No]:" := by
  apply String.ext
  simp [String.data_append]

/-- After deleting a tree, its root path no longer exists. -/
theorem pathExists_rmtree_self (fs : FS) (p : String) :
    pathExists (rmtree fs p) p = false := by
  simp [pathExists, rmtree, isUnder]

/-- C1: for every name, the exists operation succeeds (exit code 0) iff
`crates/<name>` exists at call time; it prints the status message unless
quiet is set, and returns 1 when the path does not exist. -/
theorem C1_exists_status (fs : FS) (name : String) (quiet : Bool) :
    (exit_code (exists_command fs name quiet).ret = 0
      ↔ pathExists fs (get_crates_path name) = true)
    ∧ (quiet = false →
        (exists_command fs name quiet).effects
          = [Effect.print
              (if pathExists fs (get_crates_path name) then "Exists."
               else "Does not exist.")])
    ∧ (quiet = true → (exists_command fs name quiet).effects = [])
    ∧ (pathExists fs (get_crates_path name) = false →
        (exists_command fs name quiet).ret = some 1) := by
  cases h : pathExists fs (get_crates_path name) <;> cases quiet <;>
    simp [exists_command, exists_fn, exit_code, h]

/-- Witness for C1 at a concrete filesystem containing `/ws/crates/foo`. -/
theorem C1_witness :
    exit_code (exists_command fs0 "foo" false).ret = 0
    ∧ (exists_command fs0 "foo" false).effects = [Effect.print "Exists."] :=
  ⟨(C1_exists_status fs0 "foo" false).1.mpr (by decide), by decide⟩

/-- C2: on an existing path, forced rm always deletes and never prompts;
without force the user is prompted, a case-insensitive yes or y deletes,
and any other answer leaves the path untouched. -/
theorem C2_rm_existing (fs : FS) (u name : String) (quiet : Bool)
    (h : pathExists fs (get_crates_path name) = true) :
    ((rm_command fs u name true quiet).effects
        = Effect.rmtreeE (get_crates_path name)
            :: (if !quiet then [Effect.print (name ++ " was deleted.")] else [])
      ∧ (∀ q, (rm_command fs u name true quiet).fs q
            = rmtree fs (get_crates_path name) q)
      ∧ pathExists (rm_command fs u name true quiet).fs
          (get_crates_path name) = false)
    ∧ ((lowerStr u = "yes" ∨ lowerStr u = "y") →
        (rm_command fs u name false quiet).effects
          = Effect.prompt ("Permanently delete " ++ name ++ "? [Yes/No]:")
              :: Effect.rmtreeE (get_crates_path name)
              :: (if !quiet then [Effect.print (name ++ " was deleted.")] else []))
    ∧ (¬(lowerStr u = "yes" ∨ lowerStr u = "y") →
        (rm_command fs u name false quiet).effects
            = [Effect.prompt ("Permanently delete " ++ name ++ "? [Yes/No]:")]
          ∧ ∀ q, (rm_command fs u name false quiet).fs q = fs q) := by
  refine ⟨⟨?_, ?_, ?_⟩, ?_, ?_⟩
  · simp [rm_command, h]
  · intro q; simp [rm_command, h]
  · simp [rm_command, h, pathExists_rmtree_self]
  · intro h2
    rcases h2 with h2 | h2 <;> simp [rm_command, confirm, h, h2, prompt_string]
  · intro h2
    rw [not_or] at h2
    obtain ⟨hA, hB⟩ := h2
    simp [rm_command, confirm, h, hA, hB, prompt_string]

/-- Witness for C2: `/ws/crates/foo` exists, the user answers no, the
prompt is issued and nothing else happens. -/
theorem C2_witness :
    pathExists fs0 (get_crates_path "foo") = true
    ∧ (rm_command fs0 "no" "foo" false false).effects
        = [Effect.prompt "Permanently delete foo? [Yes/No]:"] :=
  ⟨by decide,
   ((C2_rm_existing fs0 "no" "foo" false (by decide)).2.2 (by decide)).1⟩

/-- C3: rm on a missing path returns 1, leaves the filesystem unchanged and
never performs a deletion. -/
theorem C3_rm_missing (fs : FS) (u name : String) (force quiet : Bool)
    (h : pathExists fs (get_crates_path name) = false) :
    (rm_command fs u name force quiet).ret = some 1
    ∧ (∀ q, (rm_command fs u name force quiet).fs q = fs q)
    ∧ (∀ p, Effect.rmtreeE p ∉ (rm_command fs u name force quiet).effects) := by
  refine ⟨?_, ?_, ?_⟩
  · simp [rm_command, h]
  · intro q; simp [rm_command, h]
  · intro p; cases quiet <;> simp [rm_command, h]

/-- Witness for C3 on the empty filesystem. -/
theorem C3_witness :
    pathExists fsEmpty (get_crates_path "foo") = false
    ∧ (rm_command fsEmpty "no" "foo" false false).ret = some 1 :=
  ⟨by decide, (C3_rm_missing fsEmpty "no" "foo" false false (by decide)).1⟩

/-- C4: run and debug on a missing crate path return 1 without invoking any
external process. -/
theorem C4_run_debug_missing (fs : FS) (exec : List String → Int)
    (name : String) (quiet : Bool)
    (h : pathExists fs (get_crates_path name) = false) :
    (run_command fs exec name quiet).ret = some 1
    ∧ (∀ a, Effect.runProc a ∉ (run_command fs exec name quiet).effects)
    ∧ (debug_command fs exec name quiet).ret = some 1
    ∧ (∀ a, Effect.runProc a ∉ (debug_command fs exec name quiet).effects) := by
  refine ⟨?_, ?_, ?_, ?_⟩ <;> simp [run_command, debug_command, h]

/-- Witness for C4 on the empty filesystem. -/
theorem C4_witness :
    pathExists fsEmpty (get_crates_path "foo") = false
    ∧ (run_command fsEmpty exec0 "foo" false).ret = some 1
    ∧ (debug_command fsEmpty exec0 "foo" false).ret = some 1 :=
  ⟨by decide,
   (C4_run_debug_missing fsEmpty exec0 "foo" false (by decide)).1,
   (C4_run_debug_missing fsEmpty exec0 "foo" false (by decide)).2.2.1⟩

/-- C5: on an existing crate, run invokes cargo run with the release flag
and the manifest path `crates/<name>/Cargo.toml` and forwards the return
code; debug performs the same invocation without the release flag. -/
theorem C5_run_debug_invocation (fs : FS) (exec : List String → Int)
    (name : String) (quiet : Bool)
    (h : pathExists fs (get_crates_path name) = true) :
    (run_command fs exec name quiet).effects
        = [Effect.runProc ["cargo", "run", "--release", "--manifest-path",
            get_crates_path name ++ "/" ++ "Cargo.toml"]]
    ∧ (run_command fs exec name quiet).ret
        = some (exec ["cargo", "run", "--release", "--manifest-path",
            get_crates_path name ++ "/" ++ "Cargo.toml"])
    ∧ (debug_command fs exec name quiet).effects
        = [Effect.runProc ["cargo", "run", "--manifest-path",
            get_crates_path name ++ "/" ++ "Cargo.toml"]]
    ∧ (debug_command fs exec name quiet).ret
        = some (exec ["cargo", "run", "--manifest-path",
            get_crates_path name ++ "/" ++ "Cargo.toml"]) := by
  refine ⟨?_, ?_, ?_, ?_⟩ <;> simp [run_command, debug_command, h]

/-- Witness for C5 with `/ws/crates/foo` present. -/
theorem C5_witness :
    pathExists fs0 (get_crates_path "foo") = true
    ∧ (run_command fs0 exec0 "foo" false).effects
        = [Effect.runProc ["cargo", "run", "--release", "--manifest-path",
            get_crates_path "foo" ++ "/" ++ "Cargo.toml"]] :=
  ⟨by decide, (C5_run_debug_invocation fs0 exec0 "foo" false (by decide)).1⟩

/-- C6 counterexample: with the quiet flag set and a missing path, run and
debug still print the failure message, contradicting the claim that the
failure is reported only when quiet is unset. -/
theorem C6_counterexample :
    (run_command fsEmpty exec0 "foo" true).effects
        = [Effect.print "foo does not exist."]
    ∧ (debug_command fsEmpty exec0 "foo" true).effects
        = [Effect.print "foo does not exist."] := by decide

/-- C6 amended: on a missing path all four operations signal exit code 1;
rm and exists report the failure exactly when quiet is unset, while run and
debug report it unconditionally, ignoring the quiet flag. -/
theorem C6_missing_path_reporting (fs : FS) (exec : List String → Int)
    (u name : String) (force quiet : Bool)
    (h : pathExists fs (get_crates_path name) = false) :
    ((rm_command fs u name force quiet).ret = some 1
      ∧ (rm_command fs u name force quiet).effects
          = (if !quiet then [Effect.print "Path does not exist."] else []))
    ∧ ((exists_command fs name quiet).ret = some 1
      ∧ (exists_command fs name quiet).effects
          = (if !quiet then [Effect.print "Does not exist."] else []))
    ∧ ((run_command fs exec name quiet).ret = some 1
      ∧ (run_command fs exec name quiet).effects
          = [Effect.print (name ++ " does not exist.")])
    ∧ ((debug_command fs exec name quiet).ret = some 1
      ∧ (debug_command fs exec name quiet).effects
          = [Effect.print (name ++ " does not exist.")]) := by
  refine ⟨⟨?_, ?_⟩, ⟨?_, ?_⟩, ⟨?_, ?_⟩, ⟨?_, ?_⟩⟩ <;>
    simp [rm_command, exists_command, exists_fn, run_command, debug_command, h]

/-- Witness for the amended C6: quiet suppresses the rm report but not the
run report. -/
theorem C6_witness :
    pathExists fsEmpty (get_crates_path "foo") = false
    ∧ (rm_command fsEmpty "no" "foo" false true).effects = []
    ∧ (run_command fsEmpty exec0 "foo" true).ret = some 1 :=
  ⟨by decide,
   by simpa using
     (C6_missing_path_reporting fsEmpty exec0 "no" "foo" false true
       (by decide)).1.2,
   (C6_missing_path_reporting fsEmpty exec0 "no" "foo" false true
     (by decide)).2.2.1.1⟩

/-- C7: for every type and name, new invokes cargo init with the type flag
and target path `crates\<name>`, forwards the return code, does not touch
the filesystem, and never performs an existence pre-check (its return value
and effects are independent of the filesystem). -/
theorem C7_new_command_spec (fs fs2 : FS) (exec : List String → Int)
    (type name : String) :
    (new_command fs exec type name).ret
        = some (exec ["cargo", "init", "--" ++ type, "crates\\" ++ name])
    ∧ (new_command fs exec type name).effects
        = [Effect.runProc ["cargo", "init", "--" ++ type, "crates\\" ++ name]]
    ∧ (∀ q, (new_command fs exec type name).fs q = fs q)
    ∧ (new_command fs exec type name).ret = (new_command fs2 exec type name).ret
    ∧ (new_command fs exec type name).effects
        = (new_command fs2 exec type name).effects := by
  refine ⟨?_, ?_, ?_, ?_, ?_⟩ <;> simp [new_command]

/-- C8 counterexample: for the input name foo on a filesystem where
`/ws/crates/foo` exists and the user answers no, rm_command leaves the path
in place while remove deletes it, so the pair does not expose identical
external behavior; likewise open_terminal and term_command build different
argument vectors when the profile is the empty string. -/
theorem C8_counterexample :
    ((rm_command fs0 "no" "foo" false false).fs "/ws/crates/foo" = true
      ∧ fsAfterRemove (remove fs0 "foo") "/ws/crates/foo" = some false)
    ∧ open_terminal "foo" (some "") false
        ≠ (term_command fs0 exec0 "foo" "" false).effects := by
  exact ⟨⟨by decide, by decide⟩, by decide⟩

/-- C8 amended: new and new_command perform the same invocation on every
input, and exists and exists_command agree on the existence check without
touching the filesystem; open_terminal and term_command perform the same
invocation whenever the profile is the same nonempty string; remove and
rm_command perform the same deletion on an existing path when rm_command is
forced, but on a missing path remove raises an exception while rm_command
returns 1, and remove never prompts while rm_command prompts when force is
unset. -/
theorem C8_pairwise_behavior :
    (∀ (fs : FS) (exec : List String → Int) (type name : String),
        new name type = (new_command fs exec type name).effects)
    ∧ (∀ (fs : FS) (name : String) (quiet : Bool),
        ((exists_command fs name quiet).ret = none ↔ exists_fn fs name = true)
        ∧ ∀ q, (exists_command fs name quiet).fs q = fs q)
    ∧ (∀ (fs : FS) (exec : List String → Int) (name profile : String)
        (nw : Bool), profile ≠ "" →
          open_terminal name (some profile) nw
            = (term_command fs exec name profile nw).effects)
    ∧ (∀ (fs : FS) (u name : String) (quiet : Bool),
        pathExists fs (get_crates_path name) = true →
          remove fs name
              = Except.ok ([Effect.rmtreeE (get_crates_path name)],
                  rmtree fs (get_crates_path name))
            ∧ (rm_command fs u name true quiet).fs
                = rmtree fs (get_crates_path name))
    ∧ (∀ (fs : FS) (u name : String) (force quiet : Bool),
        pathExists fs (get_crates_path name) = false →
          remove fs name = Except.error name
            ∧ (rm_command fs u name force quiet).ret = some 1) := by
  refine ⟨?_, ?_, ?_, ?_, ?_⟩
  · intro fs exec type name
    simp [new, new_command]
  · intro fs name quiet
    refine ⟨?_, ?_⟩
    · cases h : exists_fn fs name <;> simp [exists_command, h]
    · intro q; cases h : exists_fn fs name <;> simp [exists_command, h]
  · intro fs exec name profile nw hp
    cases nw <;> simp [open_terminal, term_command, hp]
  · intro fs u name quiet h
    exact ⟨by simp [remove, h], by simp [rm_command, h]⟩
  · intro fs u name force quiet h
    exact ⟨by simp [remove, h], by simp [rm_command, h]⟩

/-- Witness for the amended C8: the term pair agrees on a nonempty profile
and remove raises on a missing path. -/
theorem C8_witness :
    open_terminal "foo" (some "cmd") false
        = (term_command fsEmpty exec0 "foo" "cmd" false).effects
    ∧ remove fsEmpty "foo" = Except.error "foo" :=
  ⟨C8_pairwise_behavior.2.2.1 fsEmpty exec0 "foo" "cmd" false (by decide),
   (C8_pairwise_behavior.2.2.2.2 fsEmpty "no" "foo" false false
     (by decide)).1⟩

/-- C9: the standalone entry point of new.py performs the same cargo init
invocation as the new subcommand of crates.py, and the exit code produced
by the entry wrapper from its returned process object is the external tool
return code, which is also what new_command returns. -/
theorem C9_newpy_equiv (fs : FS) (exec : List String → Int)
    (type name : String) :
    (newpy_main exec type name).2 = (new_command fs exec type name).effects
    ∧ cmdr_entry_exit (newpy_main exec type name).1
        = exec ["cargo", "init", "--" ++ type, "crates\\" ++ name]
    ∧ (new_command fs exec type name).ret
        = some (cmdr_entry_exit (newpy_main exec type name).1) := by
  refine ⟨?_, ?_, ?_⟩ <;> simp [newpy_main, new_command, cmdr_entry_exit]

/-- C10: no name validation takes place: the crate path is the raw join of
the crates directory with the name, the name dot-dot resolves to the
workspace root itself (outside the crates directory), existence checks on
it report on the root, a name with a separator likewise escapes, and a
forced rm on the name dot-dot deletes the escaped path. -/
theorem C10_no_name_validation (fs : FS) (u : String) (quiet : Bool) :
    get_crates_path ".." = crates_dir ++ "/" ++ ".."
    ∧ resolve (get_crates_path "..") = root_dir
    ∧ pathExists fs (get_crates_path "..") = pathExists fs root_dir
    ∧ isUnder crates_dir (resolve (get_crates_path "..")) = false
    ∧ resolve (get_crates_path "../other") = root_dir ++ "/other"
    ∧ (pathExists fs root_dir = true →
        (rm_command fs u ".." true quiet).fs (resolve root_dir) = false) := by
  have he : resolve (get_crates_path "..") = resolve root_dir := by decide
  refine ⟨rfl, by decide, ?_, by decide, by decide, ?_⟩
  · simp [pathExists, he]
  · intro h
    have hp : pathExists fs (get_crates_path "..") = true := by
      unfold pathExists at h ⊢
      rw [he]; exact h
    have hu : isUnder (resolve (get_crates_path "..")) (resolve root_dir)
        = true := by decide
    simp [rm_command, hp, rmtree, hu]

/-- Witness for C10: a filesystem holding only the workspace root, where a
forced rm of the name dot-dot removes the root itself. -/
theorem C10_witness :
    pathExists fsRoot root_dir = true
    ∧ (rm_command fsRoot "" ".." true false).fs (resolve root_dir) = false :=
  ⟨by decide,
   (C10_no_name_validation fsRoot "" false).2.2.2.2.2 (by decide)⟩

end Manufactory
